import Mathlib

/-!
Shallow embedding of the analytical core of the SLO chatbot repository:
the metric store rows (`service_logs`, `error_logs` tables of
`data/database/duckdb_manager.py`), the metrics aggregator
(`analytics/metrics.py`), the degradation detector
(`analytics/degradation_detector.py`), the SLO calculator
(`analytics/slo_calculator.py`) and the trend analyzer
(`analytics/trend_analyzer.py`).

Conventions of the embedding:
* Python floats are modelled as `Rat`; SQL `DOUBLE` columns that may be
  NULL are `Option Rat`.
* Timestamps are abstract integer instants (`Int`); a window length is
  given in the same unit, so `timedelta(minutes=w)` is just `w`.
* A nullable column is `Option _`; SQL comparisons with NULL are false,
  SQL `AVG` ignores NULLs and is NULL on an empty set, matching DuckDB.
* Each table is the list of its rows in insertion order.
-/

namespace SLOChatbot

/-- Row of the `service_logs` table (schema of
`DuckDBManager._create_tables` together with the percentile columns
produced by `DataLoader.load_service_logs_from_json`, which the analytics
queries read). Unused columns (`app_id`, `na_error_count`,
`response_time_min/max`, intermediate percentiles, `response_target_percent`)
are omitted. -/
structure ServiceRow where
  id : Option String
  sid : Int
  service_name : Option String
  record_time : Option Int
  total_count : Int
  success_count : Int
  error_count : Int
  success_rate : Rat
  error_rate : Rat
  response_time_avg : Rat
  response_time_p95 : Option Rat
  response_time_p99 : Option Rat
  target_error_slo_perc : Rat
  target_response_slo_sec : Rat
deriving DecidableEq

/-- All-null/zero row used as the base of concrete fixtures. -/
def baseRow : ServiceRow :=
  ⟨none, 0, none, none, 0, 0, 0, 0, 0, 0, none, none, 0, 0⟩

instance : Inhabited ServiceRow := ⟨baseRow⟩

/-- Row of the `error_logs` table (columns used by the analytics). -/
structure ErrorRow where
  wm_transaction_id : Int
  error_codes : String
  error_count : Int
  total_count : Int
  response_time_avg : Rat
  record_time : Int
deriving DecidableEq

/-! Generic helpers shared by the embedded queries. -/

/-- Stable insertion of `x` into `l`: `x` goes in front of the first
element `y` with `le x y`. -/
def insertSorted {α : Type} (le : α → α → Bool) (x : α) : List α → List α
  | [] => [x]
  | y :: ys => if le x y then x :: y :: ys else y :: insertSorted le x ys

/-- Stable insertion sort, used to embed SQL `ORDER BY` and Python's
stable `list.sort` / `sorted`. -/
def sortBy {α : Type} (le : α → α → Bool) : List α → List α
  | [] => []
  | x :: xs => insertSorted le x (sortBy le xs)

theorem insertSorted_perm {α : Type} (le : α → α → Bool) (x : α) (l : List α) :
    List.Perm (insertSorted le x l) (x :: l) := by
  induction l with
  | nil => exact List.Perm.refl _
  | cons y ys ih =>
    simp only [insertSorted]
    split
    · exact List.Perm.refl _
    · exact (ih.cons y).trans (List.Perm.swap x y ys)

theorem sortBy_perm {α : Type} (le : α → α → Bool) (l : List α) :
    List.Perm (sortBy le l) l := by
  induction l with
  | nil => exact List.Perm.refl _
  | cons x xs ih => exact (insertSorted_perm le x (sortBy le xs)).trans (ih.cons x)

theorem mem_sortBy {α : Type} {le : α → α → Bool} {x : α} {l : List α} :
    x ∈ sortBy le l ↔ x ∈ l :=
  (sortBy_perm le l).mem_iff

theorem length_sortBy {α : Type} (le : α → α → Bool) (l : List α) :
    (sortBy le l).length = l.length :=
  (sortBy_perm le l).length_eq

/-- SQL `AVG` over a non-empty group of non-null values. -/
def avgQ (l : List Rat) : Rat := l.sum / (l.length : Rat)

/-- SQL `AVG` over a nullable column: NULLs are ignored; the result is
NULL when every value is NULL. -/
def avgOptQ (l : List (Option Rat)) : Option Rat :=
  let v := l.filterMap id
  if v.isEmpty then none else some (avgQ v)

/-- SQL `MAX` over a non-empty group. -/
def maxQ : List Rat → Rat
  | [] => 0
  | x :: xs => xs.foldl max x

/-- SQL `MAX` over a nullable integer column: NULLs ignored, NULL on an
empty column. -/
def listMaxInt : List Int → Option Int
  | [] => none
  | x :: xs =>
    match listMaxInt xs with
    | none => some x
    | some m => some (max x m)

/-- `MAX(record_time)` of `DuckDBManager.get_time_range`, NULL (`none`)
when the `service_logs` table holds no timestamps. -/
def maxTimeOf (table : List ServiceRow) : Option Int :=
  listMaxInt (table.filterMap (·.record_time))

/-! Store accessor: `DuckDBManager`. -/

/-- Cleaning step of `DuckDBManager.insert_service_logs`: rows whose
`record_time` could not be converted (`pd.to_datetime(..., errors='coerce')`
yields NaT, modelled as `none`) are dropped, then rows with a null `id`. -/
def cleanServiceRows (df : List ServiceRow) : List ServiceRow :=
  (df.filter (fun r => r.record_time.isSome)).filter (fun r => r.id.isSome)

/-- State transition of `DuckDBManager.insert_service_logs` on the
`service_logs` table: an empty batch returns at once; if cleaning drops
every row the function also returns before the `DELETE`; otherwise the
table content is deleted and replaced by the cleaned batch. -/
def insert_service_logs (df : List ServiceRow) (table : List ServiceRow) : List ServiceRow :=
  if df.isEmpty then table
  else
    let cleaned := cleanServiceRows df
    if cleaned.isEmpty then table else cleaned

/-- DuckDB `ORDER BY service_name` comparison on a nullable string column
(default NULLS LAST). -/
def optNameLe : Option String → Option String → Bool
  | none, none => true
  | none, some _ => false
  | some _, none => true
  | some a, some b => decide (a < b) || a == b

/-- `DuckDBManager.get_all_services`: `SELECT DISTINCT service_name FROM
service_logs ORDER BY service_name`. A NULL stored name surfaces as a
`none` entry of the result. -/
def get_all_services (table : List ServiceRow) : List (Option String) :=
  sortBy optNameLe (table.map (·.service_name)).dedup

/-- Service filter of `DuckDBManager.get_service_logs`: the clause is added
under Python truthiness (`if service_name:`), so `None` and the empty
string both mean "no filter". -/
def matchesServiceFilter (s : Option String) (r : ServiceRow) : Bool :=
  match s with
  | none => true
  | some name => if name = "" then true else r.service_name == some name

/-- Time lower bound of `get_service_logs` (`record_time >= start`); SQL
comparison with a NULL `record_time` is false. -/
def afterStart (lo : Option Int) (r : ServiceRow) : Bool :=
  match lo with
  | none => true
  | some t0 =>
    match r.record_time with
    | some t => decide (t0 ≤ t)
    | none => false

/-- Time upper bound of `get_service_logs` (`record_time <= end`). -/
def beforeEnd (hi : Option Int) (r : ServiceRow) : Bool :=
  match hi with
  | none => true
  | some t1 =>
    match r.record_time with
    | some t => decide (t ≤ t1)
    | none => false

/-- Sort key for `ORDER BY record_time`; rows with a NULL time are only
present when no time filter was given. -/
def timeKey (r : ServiceRow) : Int := r.record_time.getD 0

/-- `DuckDBManager.get_service_logs`: optional service and time filters,
ordered by `record_time` descending. -/
def get_service_logs (db : List ServiceRow) (s : Option String)
    (lo hi : Option Int) : List ServiceRow :=
  sortBy (fun a b => timeKey b ≤ timeKey a)
    (db.filter (fun r => matchesServiceFilter s r && afterStart lo r && beforeEnd hi r))

/-! Metrics aggregator: `analytics/metrics.py`. -/

/-- Health bucket of `MetricsAggregator.get_service_health_overview`. -/
inductive HealthClass where
  | healthy
  | degraded
  | violated
deriving DecidableEq

/-- Loop body of `get_service_health_overview` classifying one grouped
service row: healthy when both SLO means are within target; otherwise
degraded when either mean exceeds 80% of its target; otherwise violated. -/
def classifyServiceHealth (avg_error_rate avg_response_time
    error_slo_target response_slo_target : Rat) : HealthClass :=
  let error_slo_met := avg_error_rate ≤ error_slo_target
  let response_slo_met := avg_response_time ≤ response_slo_target
  if error_slo_met ∧ response_slo_met then .healthy
  else if avg_error_rate > error_slo_target * (8/10)
      ∨ avg_response_time > response_slo_target * (8/10) then .degraded
  else .violated

/-- The classification rule as the specification sentence states it:
healthy when both means are within target; otherwise degraded when either
metric exceeds 80% of its target but has not breached that target;
otherwise (a target actually breached) violated. Spelled from the spec
for comparison against `classifyServiceHealth`. -/
def classifyServiceHealthSpecRule (avg_error_rate avg_response_time
    error_slo_target response_slo_target : Rat) : HealthClass :=
  if avg_error_rate ≤ error_slo_target ∧ avg_response_time ≤ response_slo_target then .healthy
  else if (avg_error_rate > error_slo_target * (8/10) ∧ avg_error_rate ≤ error_slo_target)
      ∨ (avg_response_time > response_slo_target * (8/10)
          ∧ avg_response_time ≤ response_slo_target) then .degraded
  else .violated

/-- Rows of one GROUP BY service_name group (NULL names form a group of
their own). -/
def groupRows (table : List ServiceRow) (s : Option String) : List ServiceRow :=
  table.filter (fun r => r.service_name == s)

/-- Classification of one service group from its SQL aggregates
(`AVG(error_rate)`, `AVG(response_time_avg)`, `MAX(target_error_slo_perc)`,
`MAX(target_response_slo_sec)`). -/
def classifyGroup (table : List ServiceRow) (s : Option String) : HealthClass :=
  let rows := groupRows table s
  classifyServiceHealth (avgQ (rows.map (·.error_rate)))
    (avgQ (rows.map (·.response_time_avg)))
    (maxQ (rows.map (·.target_error_slo_perc)))
    (maxQ (rows.map (·.target_response_slo_sec)))

/-- The healthy/degraded/violated counters accumulated by
`get_service_health_overview`. -/
structure HealthCounts where
  healthy : Nat
  degraded : Nat
  violated : Nat
deriving DecidableEq

/-- Counting loop of `get_service_health_overview` over the grouped rows. -/
def get_service_health_overview_counts (table : List ServiceRow) : HealthCounts :=
  let groups := (table.map (·.service_name)).dedup
  { healthy := groups.countP (fun s => classifyGroup table s = .healthy)
    degraded := groups.countP (fun s => classifyGroup table s = .degraded)
    violated := groups.countP (fun s => classifyGroup table s = .violated) }

/-! Degradation detector: `analytics/degradation_detector.py`. -/

/-- `DegradationDetector._calculate_percent_change`. -/
def calculate_percent_change (baseline current : Rat) : Rat :=
  if baseline = 0 then (if current > 0 then 100 else 0)
  else ((current - baseline) / baseline) * 100

/-- Percent change of the nullable P95/P99 aggregates: computed only when
both the recent and the baseline aggregate are non-null, else `0.0`. -/
def pctChangeOpt : Option Rat → Option Rat → Rat
  | some b, some c => calculate_percent_change b c
  | _, _ => 0

/-- Membership test `lo <= record_time <= tmax` of the recent window. -/
def inWindowCI (lo hi : Int) (r : ServiceRow) : Bool :=
  match r.record_time with
  | some t => decide (lo ≤ t) && decide (t ≤ hi)
  | none => false

/-- Membership test `lo <= record_time < hi` of the baseline window. -/
def inWindowCO (lo hi : Int) (r : ServiceRow) : Bool :=
  match r.record_time with
  | some t => decide (lo ≤ t) && decide (t < hi)
  | none => false

/-- Rows of one service inside the recent window
`[tmax - w, tmax]` of `detect_degrading_services`. -/
def recentRowsFor (db : List ServiceRow) (w tmax : Int) (s : String) : List ServiceRow :=
  db.filter (fun r => r.service_name == some s && inWindowCI (tmax - w) tmax r)

/-- Rows of one service inside the baseline window
`[tmax - 2w, tmax - w)` of `detect_degrading_services`. -/
def baselineRowsFor (db : List ServiceRow) (w tmax : Int) (s : String) : List ServiceRow :=
  db.filter (fun r => r.service_name == some s && inWindowCO (tmax - 2 * w) (tmax - w) r)

/-- Aggregates of one window group (the recent/baseline SELECT of
`detect_degrading_services`). -/
structure WinAgg where
  avg_error_rate : Rat
  avg_response_time : Rat
  avg_p95 : Option Rat
  avg_p99 : Option Rat
  total_requests : Int
  total_errors : Int
deriving DecidableEq

/-- GROUP BY aggregation of one window group. -/
def aggOf (rows : List ServiceRow) : WinAgg :=
  { avg_error_rate := avgQ (rows.map (·.error_rate))
    avg_response_time := avgQ (rows.map (·.response_time_avg))
    avg_p95 := avgOptQ (rows.map (·.response_time_p95))
    avg_p99 := avgOptQ (rows.map (·.response_time_p99))
    total_requests := (rows.map (·.total_count)).sum
    total_errors := (rows.map (·.error_count)).sum }

/-- The four percent changes computed for one merged comparison row. -/
structure ChangeSet where
  error_rate_change : Rat
  response_time_change : Rat
  p95_change : Rat
  p99_change : Rat
deriving DecidableEq

/-- Percent changes of one service between its baseline and recent window
aggregates. -/
def degChanges (db : List ServiceRow) (w tmax : Int) (s : String) : ChangeSet :=
  let ra := aggOf (recentRowsFor db w tmax s)
  let ba := aggOf (baselineRowsFor db w tmax s)
  { error_rate_change := calculate_percent_change ba.avg_error_rate ra.avg_error_rate
    response_time_change := calculate_percent_change ba.avg_response_time ra.avg_response_time
    p95_change := pctChangeOpt ba.avg_p95 ra.avg_p95
    p99_change := pctChangeOpt ba.avg_p99 ra.avg_p99 }

/-- `is_degrading` check of `detect_degrading_services`: any of the four
changes strictly above the threshold. -/
def isDegrading (thr : Rat) (c : ChangeSet) : Bool :=
  decide (c.error_rate_change > thr) || decide (c.response_time_change > thr)
    || decide (c.p95_change > thr) || decide (c.p99_change > thr)

/-- `DegradationDetector._classify_severity`. -/
def classify_severity (c : ChangeSet) : String :=
  let max_change := max (max c.error_rate_change c.response_time_change)
    (max c.p95_change c.p99_change)
  if max_change > 100 then "critical"
  else if max_change > 50 then "warning"
  else "minor"

/-- Output entry of `detect_degrading_services` (fields the claims read). -/
structure DegEntry where
  service_name : String
  changes : ChangeSet
  severity : String
  total_requests_recent : Int
  total_errors_recent : Int
deriving DecidableEq

/-- Maximum of the four changes, the descending sort key of the result
list. -/
def maxChangeOf (e : DegEntry) : Rat :=
  max (max e.changes.error_rate_change e.changes.response_time_change)
    (max e.changes.p95_change e.changes.p99_change)

/-- Entry built for one service of the merged comparison: `none` when the
service has no baseline rows (inner merge) or is not degrading. -/
def degEntryFor (db : List ServiceRow) (w tmax : Int) (thr : Rat) (s : String) :
    Option DegEntry :=
  if (baselineRowsFor db w tmax s).isEmpty then none
  else
    let c := degChanges db w tmax s
    if isDegrading thr c then
      some { service_name := s
             changes := c
             severity := classify_severity c
             total_requests_recent := (aggOf (recentRowsFor db w tmax s)).total_requests
             total_errors_recent := (aggOf (recentRowsFor db w tmax s)).total_errors }
    else none

/-- `DegradationDetector.detect_degrading_services`: empty when the store
has no data; otherwise the recent-window services (inner-merged with the
baseline window) that degrade beyond the threshold, sorted descending by
their maximum percent change. -/
def detect_degrading_services (db : List ServiceRow) (w : Int) (thr : Rat) :
    List DegEntry :=
  match maxTimeOf db with
  | none => []
  | some tmax =>
    let services := ((db.filter (inWindowCI (tmax - w) tmax)).filterMap
      (·.service_name)).dedup
    sortBy (fun a b => maxChangeOf b ≤ maxChangeOf a)
      (services.filterMap (degEntryFor db w tmax thr))

/-- `DISTINCT sid` resolution of `get_error_code_distribution` for a named
service (the query has no time bound). -/
def resolveServiceIds (sdb : List ServiceRow) (s : String) : List Int :=
  ((sdb.filter (fun r => r.service_name == some s)).map (·.sid)).dedup

/-- Error rows inside the window `[tmax - w, tmax]`. -/
def errorWindowRows (edb : List ErrorRow) (wstart tmax : Int) : List ErrorRow :=
  edb.filter (fun e => decide (wstart ≤ e.record_time) && decide (e.record_time ≤ tmax))

/-- Error rows selected by `get_error_code_distribution`: the window rows,
additionally filtered by resolved transaction ids only when a non-empty
service name is given (Python truthiness) and at least one id resolved
(the code appends the `IN` clause only for a non-empty id list). -/
def errorRowsSelected (sdb : List ServiceRow) (edb : List ErrorRow)
    (svc : Option String) (wstart tmax : Int) : List ErrorRow :=
  let base := errorWindowRows edb wstart tmax
  match svc with
  | none => base
  | some s =>
    if s = "" then base
    else
      let ids := resolveServiceIds sdb s
      if ids.isEmpty then base
      else base.filter (fun e => ids.contains e.wm_transaction_id)

/-- One bucket of the error-code distribution. -/
structure DistEntry where
  error_code : String
  count : Int
  percentage : Rat
  occurrences : Nat
  avg_response_time : Rat
deriving DecidableEq

/-- GROUP BY error_codes conversion of the selected rows into the
distribution, ordered descending by total errors. -/
def distEntriesOf (rows : List ErrorRow) : List DistEntry :=
  let codes := (rows.map (·.error_codes)).dedup
  let total_errors_all : Int := (rows.map (·.error_count)).sum
  sortBy (fun a b => b.count ≤ a.count)
    (codes.map (fun c =>
      let crows := rows.filter (fun e => e.error_codes == c)
      let tot : Int := (crows.map (·.error_count)).sum
      { error_code := c
        count := tot
        percentage := if 0 < total_errors_all
          then ((tot : Rat) / (total_errors_all : Rat)) * 100 else 0
        occurrences := crows.length
        avg_response_time := avgQ (crows.map (·.response_time_avg)) }))

/-- `DegradationDetector.get_error_code_distribution`: `none` models the
`{'error': 'No data available'}` result returned when the service table
holds no timestamp; otherwise the distribution of the selected rows. -/
def get_error_code_distribution (sdb : List ServiceRow) (edb : List ErrorRow)
    (svc : Option String) (w : Int) : Option (List DistEntry) :=
  match maxTimeOf sdb with
  | none => none
  | some tmax => some (distEntriesOf (errorRowsSelected sdb edb svc (tmax - w) tmax))

/-! SLO calculator: `analytics/slo_calculator.py`. -/

/-- Result record of `SLOCalculator.calculate_error_budget`. -/
structure ErrorBudgetResult where
  total_requests : Int
  total_errors : Int
  error_slo_target : Rat
  error_budget : Rat
  errors_consumed : Int
  budget_remaining : Rat
  budget_consumed_percent : Rat
  status : String
deriving DecidableEq

/-- `SLOCalculator.calculate_error_budget` over the window `[lo, hi]`:
`none` models the `'No data found'` result on an empty query. The SLO
target is read from the first row of the time-descending query result. -/
def calculate_error_budget (db : List ServiceRow) (s : String) (lo hi : Int) :
    Option ErrorBudgetResult :=
  match get_service_logs db (some s) (some lo) (some hi) with
  | [] => none
  | first :: rest =>
    let df := first :: rest
    let total_requests : Int := (df.map (·.total_count)).sum
    let total_errors : Int := (df.map (·.error_count)).sum
    let error_slo_target := first.target_error_slo_perc
    let error_budget := (error_slo_target / 100) * (total_requests : Rat)
    let budget_remaining := error_budget - (total_errors : Rat)
    some { total_requests := total_requests
           total_errors := total_errors
           error_slo_target := error_slo_target
           error_budget := error_budget
           errors_consumed := total_errors
           budget_remaining := budget_remaining
           budget_consumed_percent := if error_budget > 0
             then ((total_errors : Rat) / error_budget) * 100 else 0
           status := if budget_remaining > 0 then "healthy" else "budget_exceeded" }

/-- Result record of `SLOCalculator.calculate_burn_rate`. -/
structure BurnRateResult where
  actual_error_rate : Rat
  error_slo_target : Rat
  burn_rate : Rat
  severity : String
  total_requests : Int
  total_errors : Int
deriving DecidableEq

/-- `SLOCalculator.calculate_burn_rate` over the window `[lo, hi]`:
`none` models the `'No data found'` result on an empty query. -/
def calculate_burn_rate (db : List ServiceRow) (s : String) (lo hi : Int) :
    Option BurnRateResult :=
  match get_service_logs db (some s) (some lo) (some hi) with
  | [] => none
  | first :: rest =>
    let df := first :: rest
    let total_requests : Int := (df.map (·.total_count)).sum
    let total_errors : Int := (df.map (·.error_count)).sum
    let actual_error_rate := if 0 < total_requests
      then ((total_errors : Rat) / (total_requests : Rat)) * 100 else 0
    let error_slo_target := first.target_error_slo_perc
    let burn_rate := if 0 < error_slo_target
      then actual_error_rate / error_slo_target else 0
    some { actual_error_rate := actual_error_rate
           error_slo_target := error_slo_target
           burn_rate := burn_rate
           severity := if burn_rate < 1 then "healthy"
             else if burn_rate < 2 then "warning"
             else if burn_rate < 10 then "critical"
             else "emergency"
           total_requests := total_requests
           total_errors := total_errors }

/-! Trend analyzer: `analytics/trend_analyzer.py`. -/

/-- `TrendAnalyzer._calculate_linear_trend`: the ordinary least-squares
slope of `values` against positions `0..n-1` (`np.polyfit(x, values, 1)[0]`),
`0.0` for fewer than two points. -/
def linearTrendSlope (ys : List Rat) : Rat :=
  if ys.length < 2 then 0
  else
    let n : Rat := (ys.length : Rat)
    let xs : List Rat := (List.range ys.length).map (fun i => (i : Rat))
    let sx := xs.sum
    let sy := ys.sum
    let sxy := ((xs.zip ys).map (fun p => p.1 * p.2)).sum
    let sxx := (xs.map (fun x => x * x)).sum
    (n * sxy - sx * sy) / (n * sxx - sx * sx)

/-- Sample variance with one delta degree of freedom, i.e. the square of
pandas `Series.std()`. The source compares `std > 5`; with a non-negative
standard deviation this is equivalent to `variance > 25`, which keeps the
embedding inside the rationals. -/
def sampleVariance (ys : List Rat) : Rat :=
  if ys.length < 2 then 0
  else
    let n : Rat := (ys.length : Rat)
    let m := ys.sum / n
    ((ys.map (fun y => (y - m) * (y - m))).sum) / (n - 1)

/-- Full history of one service as `_analyze_service_trend` reads it:
`get_service_logs` without time bounds, re-sorted ascending by
`record_time`. -/
def trendRowsAsc (db : List ServiceRow) (svc : Option String) : List ServiceRow :=
  sortBy (fun a b => timeKey a ≤ timeKey b) (get_service_logs db svc none none)

/-- Error-rate series slope of one service's history. -/
def erSlopeOf (db : List ServiceRow) (svc : Option String) : Rat :=
  linearTrendSlope ((trendRowsAsc db svc).map (·.error_rate))

/-- Response-time series slope of one service's history. -/
def rtSlopeOf (db : List ServiceRow) (svc : Option String) : Rat :=
  linearTrendSlope ((trendRowsAsc db svc).map (·.response_time_avg))

/-- Sample variance of the error-rate series (square of the std the source
compares against 5). -/
def erVarOf (db : List ServiceRow) (svc : Option String) : Rat :=
  sampleVariance ((trendRowsAsc db svc).map (·.error_rate))

/-- Latest history row (`df.iloc[-1]` after the ascending sort). -/
def latestRowOf (db : List ServiceRow) (svc : Option String) : ServiceRow :=
  (trendRowsAsc db svc).getLastD default

/-- Risk factor labels accumulated by `_analyze_service_trend` (the
interpolated numbers of the source's f-strings are omitted). -/
def riskFactorsOf (db : List ServiceRow) (svc : Option String) : List String :=
  let latest := latestRowOf db svc
  (if erSlopeOf db svc > 1/10 then ["Error rate trending upward"] else [])
    ++ (if rtSlopeOf db svc > 1/1000 then ["Response time trending upward"] else [])
    ++ (if latest.error_rate > latest.target_error_slo_perc * (7/10)
        then ["Error rate approaching SLO target"] else [])
    ++ (if latest.response_time_avg > latest.target_response_slo_sec * (7/10)
        then ["Response time approaching SLO target"] else [])
    ++ (if erVarOf db svc > 25 then ["High error rate volatility"] else [])
    ++ (if latest.error_rate > latest.target_error_slo_perc
        then ["Currently violating error rate SLO"] else [])
    ++ (if latest.response_time_avg > latest.target_response_slo_sec
        then ["Currently violating response time SLO"] else [])

/-- Risk score accumulated by `_analyze_service_trend` (the sequential
`risk_score += k` additions written as one sum). -/
def riskScoreOf (db : List ServiceRow) (svc : Option String) : Int :=
  let latest := latestRowOf db svc
  (if erSlopeOf db svc > 1/10 then 30 else 0)
    + (if rtSlopeOf db svc > 1/1000 then 20 else 0)
    + (if latest.error_rate > latest.target_error_slo_perc * (7/10) then 25 else 0)
    + (if latest.response_time_avg > latest.target_response_slo_sec * (7/10) then 25 else 0)
    + (if erVarOf db svc > 25 then 15 else 0)
    + (if latest.error_rate > latest.target_error_slo_perc then 40 else 0)
    + (if latest.response_time_avg > latest.target_response_slo_sec then 40 else 0)

/-- Risk level thresholds of `_analyze_service_trend`. -/
def riskLevelOfScore (score : Int) : String :=
  if score ≥ 70 then "critical"
  else if score ≥ 50 then "high"
  else if score ≥ 30 then "medium"
  else "low"

/-- Result record of `_analyze_service_trend`. -/
structure TrendPrediction where
  service_name : Option String
  risk_level : String
  risk_score : Int
  risk_factors : List String
  error_rate_slope : Rat
  response_time_slope : Rat
deriving DecidableEq

/-- `TrendAnalyzer._analyze_service_trend`: `none` for fewer than three
history rows or when no risk factor triggered. -/
def analyze_service_trend (db : List ServiceRow) (svc : Option String) :
    Option TrendPrediction :=
  if (get_service_logs db svc none none).length < 3 then none
  else if (riskFactorsOf db svc).isEmpty then none
  else some { service_name := svc
              risk_level := riskLevelOfScore (riskScoreOf db svc)
              risk_score := riskScoreOf db svc
              risk_factors := riskFactorsOf db svc
              error_rate_slope := erSlopeOf db svc
              response_time_slope := rtSlopeOf db svc }

/-- `TrendAnalyzer.predict_issues_today`: empty when the store has no data;
otherwise every known service is analyzed, only high/critical predictions
are kept, sorted descending by risk score. -/
def predict_issues_today (db : List ServiceRow) : List TrendPrediction :=
  match maxTimeOf db with
  | none => []
  | some _ =>
    sortBy (fun a b => b.risk_score ≤ a.risk_score)
      ((get_all_services db).filterMap (fun sv =>
        match analyze_service_trend db sv with
        | some p =>
          if p.risk_level = "high" ∨ p.risk_level = "critical" then some p else none
        | none => none))

/-! Concrete tables used by witnesses and counterexamples. -/

/-- Batch whose every row is dropped by cleaning: one row with a null id,
one with an unconvertible timestamp. -/
def c10BadBatch : List ServiceRow :=
  [{ baseRow with
     id := none, record_time := some 5 },
   { baseRow with
     id := some "row-2", record_time := none }]

/-- Previously loaded table content. -/
def c10Table : List ServiceRow :=
  [{ baseRow with
     id := some "old-1", service_name := some "legacy",
     record_time := some 1 }]

/-- Table content loaded before the round-trip batch. -/
def c3Table : List ServiceRow :=
  [{ baseRow with
     id := some "old", service_name := some "stale", record_time := some 1 }]

/-- Well-formed batch with two distinct service names. -/
def c3Batch : List ServiceRow :=
  [{ baseRow with
     id := some "1", service_name := some "svc-b",
     record_time := some 10 },
   { baseRow with
     id := some "2", service_name := some "svc-a",
     record_time := some 20 },
   { baseRow with
     id := some "3", service_name := some "svc-b",
     record_time := some 30 }]

/-- One service whose mean error rate is double its target while its mean
response time is well inside target. -/
def c1Db : List ServiceRow :=
  [{ baseRow with
     id := some "1", service_name := some "checkout",
     record_time := some 1, error_rate := 2, response_time_avg := 1/2,
     target_error_slo_perc := 1, target_response_slo_sec := 1 }]

/-- Service table holding only the service `payments` (sid 7). -/
def c2ServiceDb : List ServiceRow :=
  [{ baseRow with
     id := some "1", sid := 7,
     service_name := some "payments", record_time := some 100 }]

/-- Error table with one in-window error row of an unrelated transaction. -/
def c2ErrorDb : List ErrorRow :=
  [{ wm_transaction_id := 99, error_codes := "500", error_count := 3,
     total_count := 10, response_time_avg := 2, record_time := 100 }]

/-- Baseline-window row of `svc-a` (error rate 5). -/
def c5a1 : ServiceRow :=
  { baseRow with
    id := some "a1", service_name := some "svc-a",
    record_time := some 5, error_rate := 5, response_time_avg := 1,
    target_error_slo_perc := 10, target_response_slo_sec := 2 }

/-- Recent-window row of `svc-a` (error rate 6.5, a 30% rise). -/
def c5a2 : ServiceRow :=
  { baseRow with
    id := some "a2", service_name := some "svc-a",
    record_time := some 20, error_rate := 13/2, response_time_avg := 1,
    target_error_slo_perc := 10, target_response_slo_sec := 2 }

/-- Baseline-window row of `svc-b` (error rate 5). -/
def c5b1 : ServiceRow :=
  { baseRow with
    id := some "b1", service_name := some "svc-b",
    record_time := some 5, error_rate := 5, response_time_avg := 1,
    target_error_slo_perc := 10, target_response_slo_sec := 2 }

/-- Recent-window row of `svc-b` (error rate 5.5, a 10% rise). -/
def c5b2 : ServiceRow :=
  { baseRow with
    id := some "b2", service_name := some "svc-b",
    record_time := some 20, error_rate := 11/2, response_time_avg := 1,
    target_error_slo_perc := 10, target_response_slo_sec := 2 }

/-- Two services over two windows (w = 10, tmax = 20): `svc-a` error rate
rises 5 → 6.5 (30%), `svc-b` rises 5 → 5.5 (10%); response times flat. -/
def c5Db : List ServiceRow := [c5a1, c5a2, c5b1, c5b2]

/-- Early window row of `api` (4000 requests, 60 errors). -/
def c6r1 : ServiceRow :=
  { baseRow with
    id := some "1", service_name := some "api",
    record_time := some 10, total_count := 4000, error_count := 60,
    target_error_slo_perc := 1 }

/-- Late window row of `api` (6000 requests, 90 errors). -/
def c6r2 : ServiceRow :=
  { baseRow with
    id := some "2", service_name := some "api",
    record_time := some 20, total_count := 6000, error_count := 90,
    target_error_slo_perc := 1 }

/-- One service with 10000 requests and 150 errors against a 1% target. -/
def c6Db : List ServiceRow := [c6r1, c6r2]

/-- Row of `api` with 100 requests and 3 errors against a 1% target. -/
def c7r1 : ServiceRow :=
  { baseRow with
    id := some "1", service_name := some "api",
    record_time := some 10, total_count := 100, error_count := 3,
    target_error_slo_perc := 1 }

/-- One service with a 3% actual error rate against a 1% target. -/
def c7Db : List ServiceRow := [c7r1]

/-- First history point of `svc` (error rate 0.5). -/
def c8r1 : ServiceRow :=
  { baseRow with
    id := some "1", service_name := some "svc",
    record_time := some 0, error_rate := 1/2, response_time_avg := 1/10,
    target_error_slo_perc := 1, target_response_slo_sec := 1 }

/-- Second history point of `svc` (error rate 0.65). -/
def c8r2 : ServiceRow :=
  { baseRow with
    id := some "2", service_name := some "svc",
    record_time := some 1, error_rate := 13/20, response_time_avg := 1/10,
    target_error_slo_perc := 1, target_response_slo_sec := 1 }

/-- Third history point of `svc` (error rate 0.8 = 80% of the 1% target). -/
def c8r3 : ServiceRow :=
  { baseRow with
    id := some "3", service_name := some "svc",
    record_time := some 2, error_rate := 4/5, response_time_avg := 1/10,
    target_error_slo_perc := 1, target_response_slo_sec := 1 }

/-- Three-point history with error-rate slope 0.15, flat response times,
latest error rate at exactly 80% of its target. -/
def c8Db : List ServiceRow := [c8r1, c8r2, c8r3]

/-- First row of the empty-string-named service. -/
def c9e1 : ServiceRow :=
  { baseRow with
    id := some "e1", service_name := some "",
    record_time := some 0, error_rate := 50, response_time_avg := 10,
    target_error_slo_perc := 1, target_response_slo_sec := 1, total_count := 10 }

/-- Second row of the empty-string-named service. -/
def c9e2 : ServiceRow :=
  { baseRow with
    id := some "e2", service_name := some "",
    record_time := some 1, error_rate := 50, response_time_avg := 10,
    target_error_slo_perc := 1, target_response_slo_sec := 1, total_count := 10 }

/-- First row of service `x`. -/
def c9x1 : ServiceRow :=
  { baseRow with
    id := some "x1", service_name := some "x",
    record_time := some 2, error_rate := 50, response_time_avg := 10,
    target_error_slo_perc := 1, target_response_slo_sec := 1, total_count := 10 }

/-- Second row of service `x`. -/
def c9x2 : ServiceRow :=
  { baseRow with
    id := some "x2", service_name := some "x",
    record_time := some 3, error_rate := 50, response_time_avg := 10,
    target_error_slo_perc := 1, target_response_slo_sec := 1, total_count := 10 }

/-- Table where the empty-string service has only two rows but every row
of the table violates its SLO targets. -/
def c9Db : List ServiceRow := [c9e1, c9e2, c9x1, c9x2]

/-! Theorems. -/

/-- C4: `_calculate_percent_change` returns 100 when the baseline is 0 and
the current value is positive, 0 when the baseline is 0 and the current
value is not positive, and otherwise `((current - baseline)/baseline)*100`;
in particular 0→5 gives 100, 0→0 gives 0 and 10→15 gives 50, with no
division by zero possible. -/
theorem calculate_percent_change_spec (b c : Rat) :
    (b = 0 → 0 < c → calculate_percent_change b c = 100)
    ∧ (b = 0 → c ≤ 0 → calculate_percent_change b c = 0)
    ∧ (b ≠ 0 → calculate_percent_change b c = ((c - b) / b) * 100)
    ∧ calculate_percent_change 0 5 = 100
    ∧ calculate_percent_change 0 0 = 0
    ∧ calculate_percent_change 10 15 = 50 := by
  refine ⟨?_, ?_, ?_, by norm_num [calculate_percent_change],
    by norm_num [calculate_percent_change], by norm_num [calculate_percent_change]⟩
  · intro hb hc
    simp [calculate_percent_change, hb, hc]
  · intro hb hc
    simp [calculate_percent_change, hb, not_lt.mpr hc]
  · intro hb
    simp [calculate_percent_change, hb]

/-- Witness for C4 at the input (baseline 0, current 5). -/
theorem calculate_percent_change_spec_witness :
    ((0 : Rat) = 0 ∧ (0 : Rat) < 5) ∧ calculate_percent_change 0 5 = 100 :=
  ⟨⟨rfl, by norm_num⟩, (calculate_percent_change_spec 0 5).1 rfl (by norm_num)⟩

/-- C10: an empty batch or one in which cleaning drops every row leaves
the previously loaded `service_logs` content unchanged; the
delete-then-insert replacement happens exactly when at least one valid
row survives cleaning, and then the new content is the cleaned batch. -/
theorem insert_service_logs_guard (df table : List ServiceRow) :
    (cleanServiceRows df = [] → insert_service_logs df table = table)
    ∧ (cleanServiceRows df ≠ [] → insert_service_logs df table = cleanServiceRows df) := by
  constructor
  · intro h
    by_cases hdf : df.isEmpty <;> simp [insert_service_logs, hdf, h]
  · intro h
    have hdf : df.isEmpty = false := by
      rcases df with _ | _
      · exact absurd rfl h
      · rfl
    have hcl : (cleanServiceRows df).isEmpty = false := by
      rcases hc : cleanServiceRows df with _ | _
      · exact absurd hc h
      · rfl
    simp [insert_service_logs, hdf, hcl]

/-- Witness for C10: a batch whose rows all fail cleaning (null id or
unconvertible timestamp) leaves the table as it was. -/
theorem insert_service_logs_guard_witness :
    cleanServiceRows c10BadBatch = []
    ∧ insert_service_logs c10BadBatch c10Table = c10Table :=
  ⟨by decide, (insert_service_logs_guard c10BadBatch c10Table).1 (by decide)⟩

/-- C3: after `insert_service_logs` loads a non-empty batch of well-formed
rows (non-null id, convertible timestamp, non-null service name),
`get_all_services` returns exactly the distinct service names of the
batch: membership agrees with the batch's names, there are no duplicate
entries and no null entry. -/
theorem get_all_services_roundtrip (df table : List ServiceRow)
    (hne : df ≠ [])
    (hwf : ∀ r ∈ df, r.id.isSome ∧ r.record_time.isSome ∧ r.service_name ≠ none) :
    (get_all_services (insert_service_logs df table)).Nodup
    ∧ (∀ x, x ∈ get_all_services (insert_service_logs df table)
        ↔ x ∈ df.map (·.service_name))
    ∧ none ∉ get_all_services (insert_service_logs df table) := by
  have h1 : df.filter (fun r => r.record_time.isSome) = df :=
    List.filter_eq_self.mpr (fun r hr => (hwf r hr).2.1)
  have hclean : cleanServiceRows df = df := by
    unfold cleanServiceRows
    rw [h1]
    exact List.filter_eq_self.mpr (fun r hr => (hwf r hr).1)
  have hdf : df.isEmpty = false := by
    rcases df with _ | _
    · exact absurd rfl hne
    · rfl
  have hins : insert_service_logs df table = df := by
    simp [insert_service_logs, hdf, hclean]
  rw [hins]
  refine ⟨?_, ?_, ?_⟩
  · exact ((sortBy_perm optNameLe _).nodup_iff).mpr (List.nodup_dedup _)
  · intro x
    exact mem_sortBy.trans List.mem_dedup
  · intro hmem
    have hmem' : (none : Option String) ∈ df.map (·.service_name) :=
      (mem_sortBy.trans List.mem_dedup).mp hmem
    obtain ⟨r, hr, hname⟩ := List.mem_map.mp hmem'
    exact (hwf r hr).2.2 hname

/-- Witness for C3 on a three-row batch with names svc-b, svc-a, svc-b. -/
theorem get_all_services_roundtrip_witness :
    (c3Batch ≠ []
      ∧ ∀ r ∈ c3Batch, r.id.isSome ∧ r.record_time.isSome ∧ r.service_name ≠ none)
    ∧ ((get_all_services (insert_service_logs c3Batch c3Table)).Nodup
      ∧ (∀ x, x ∈ get_all_services (insert_service_logs c3Batch c3Table)
          ↔ x ∈ c3Batch.map (·.service_name))
      ∧ none ∉ get_all_services (insert_service_logs c3Batch c3Table)) :=
  ⟨⟨by decide, by decide⟩,
    get_all_services_roundtrip c3Batch c3Table (by decide) (by decide)⟩

/-- C1 counterexample: a service whose mean error rate (2%) is double its
1% target while its mean response time is inside target is counted
degraded by `get_service_health_overview` (2 > 0.8 suffices for the code's
80% test), whereas the claimed rule — degraded only when a metric exceeds
80% of target without breaching it — classifies it violated. -/
theorem health_overview_counterexample :
    classifyServiceHealth 2 (1/2) 1 1 = HealthClass.degraded
    ∧ classifyServiceHealthSpecRule 2 (1/2) 1 1 = HealthClass.violated
    ∧ get_service_health_overview_counts c1Db = ⟨0, 1, 0⟩ := by
  refine ⟨?_, ?_, ?_⟩
  · norm_num [classifyServiceHealth]
  · norm_num [classifyServiceHealthSpecRule]
  · norm_num [get_service_health_overview_counts, c1Db, classifyGroup, groupRows,
      classifyServiceHealth, avgQ, maxQ]
    exact ⟨by decide, by decide⟩

/-- C1 amended: `get_service_health_overview` classifies a service healthy
exactly when both means are within target; otherwise degraded exactly when
either mean exceeds 80% of its target (whether or not that target is
breached); otherwise violated — and with non-negative targets the violated
bucket is unreachable, since a breached target implies the 80% test. -/
theorem classifyServiceHealth_amended (aer art et rt : Rat) :
    (classifyServiceHealth aer art et rt = HealthClass.healthy ↔ aer ≤ et ∧ art ≤ rt)
    ∧ (¬(aer ≤ et ∧ art ≤ rt) →
        (classifyServiceHealth aer art et rt = HealthClass.degraded
          ↔ (aer > et * (8/10) ∨ art > rt * (8/10))))
    ∧ (¬(aer ≤ et ∧ art ≤ rt) → ¬(aer > et * (8/10) ∨ art > rt * (8/10)) →
        classifyServiceHealth aer art et rt = HealthClass.violated)
    ∧ (0 ≤ et → 0 ≤ rt → classifyServiceHealth aer art et rt ≠ HealthClass.violated) := by
  refine ⟨?_, ?_, ?_, ?_⟩
  · by_cases h1 : aer ≤ et ∧ art ≤ rt
    · simp [classifyServiceHealth, h1]
    · by_cases h2 : aer > et * (8/10) ∨ art > rt * (8/10) <;>
        simp [classifyServiceHealth, h1, h2]
  · intro h1
    by_cases h2 : aer > et * (8/10) ∨ art > rt * (8/10) <;>
      simp [classifyServiceHealth, h1, h2]
  · intro h1 h2
    simp [classifyServiceHealth, h1, h2]
  · intro het hrt
    by_cases h1 : aer ≤ et ∧ art ≤ rt
    · simp [classifyServiceHealth, h1]
    · have h2 : aer > et * (8/10) ∨ art > rt * (8/10) := by
        rcases not_and_or.mp h1 with h | h
        · exact Or.inl (lt_of_le_of_lt (mul_le_of_le_one_right het (by norm_num))
            (not_le.mp h))
        · exact Or.inr (lt_of_le_of_lt (mul_le_of_le_one_right hrt (by norm_num))
            (not_le.mp h))
      simp [classifyServiceHealth, h1, h2]

/-- Witness for the amended C1 at a service breaching only its error-rate
target. -/
theorem classifyServiceHealth_amended_witness :
    (¬((2 : Rat) ≤ 1 ∧ (1/2 : Rat) ≤ 1))
    ∧ (classifyServiceHealth 2 (1/2) 1 1 = HealthClass.degraded
        ↔ ((2 : Rat) > 1 * (8/10) ∨ (1/2 : Rat) > 1 * (8/10))) :=
  ⟨by norm_num, (classifyServiceHealth_amended 2 (1/2) 1 1).2.1 (by norm_num)⟩

/-- C2 counterexample: the service `ghost` resolves zero transaction ids,
yet `get_error_code_distribution` returns the non-empty distribution over
all errors in the window (one bucket for code 500), not an empty
distribution. -/
theorem error_code_distribution_counterexample :
    resolveServiceIds c2ServiceDb "ghost" = []
    ∧ get_error_code_distribution c2ServiceDb c2ErrorDb (some "ghost") 30 =
        some [{ error_code := "500", count := 3, percentage := 100,
                occurrences := 1, avg_response_time := 2 }] := by
  constructor
  · decide
  · have hmax : maxTimeOf c2ServiceDb = some 100 := rfl
    have hrows : errorRowsSelected c2ServiceDb c2ErrorDb (some "ghost") (100 - 30) 100 =
        c2ErrorDb := rfl
    have hcodes : (c2ErrorDb.map (·.error_codes)).dedup = ["500"] := rfl
    have hfilter : c2ErrorDb.filter (fun e => e.error_codes == "500") = c2ErrorDb := rfl
    rw [get_error_code_distribution, hmax]
    dsimp only
    rw [show distEntriesOf (errorRowsSelected c2ServiceDb c2ErrorDb (some "ghost")
      (100 - 30) 100) = distEntriesOf c2ErrorDb from congrArg _ hrows]
    rw [distEntriesOf]
    norm_num [hcodes, hfilter, c2ErrorDb, avgQ, sortBy, insertSorted,
      DistEntry.mk.injEq]

/-- C2 amended: for a non-empty service name, when at least one
transaction id resolves the error rows are restricted to those ids
(inner-join-by-id); when zero ids resolve the id filter is omitted and
the result equals the all-errors distribution of the window, exactly as
if no service had been given. -/
theorem error_code_distribution_amended (sdb : List ServiceRow)
    (edb : List ErrorRow) (s : String) (w tmax : Int)
    (hmax : maxTimeOf sdb = some tmax) (hs : s ≠ "") :
    (resolveServiceIds sdb s = [] →
      get_error_code_distribution sdb edb (some s) w =
        get_error_code_distribution sdb edb none w)
    ∧ (resolveServiceIds sdb s ≠ [] →
        get_error_code_distribution sdb edb (some s) w =
          some (distEntriesOf ((errorWindowRows edb (tmax - w) tmax).filter
            (fun e => (resolveServiceIds sdb s).contains e.wm_transaction_id)))) := by
  constructor
  · intro h
    rw [get_error_code_distribution, get_error_code_distribution, hmax]
    simp [errorRowsSelected, hs, h]
  · intro h
    have hne : (resolveServiceIds sdb s).isEmpty = false := by
      rcases hid : resolveServiceIds sdb s with _ | _
      · exact absurd hid h
      · rfl
    rw [get_error_code_distribution, hmax]
    simp [errorRowsSelected, hs, hne]

/-- Witness for the amended C2: the service `payments` resolves id 7, and
the service table's maximum time is 100. -/
theorem error_code_distribution_amended_witness :
    (maxTimeOf c2ServiceDb = some 100 ∧ "payments" ≠ "")
    ∧ ((resolveServiceIds c2ServiceDb "payments" = [] →
        get_error_code_distribution c2ServiceDb c2ErrorDb (some "payments") 30 =
          get_error_code_distribution c2ServiceDb c2ErrorDb none 30)
      ∧ (resolveServiceIds c2ServiceDb "payments" ≠ [] →
          get_error_code_distribution c2ServiceDb c2ErrorDb (some "payments") 30 =
            some (distEntriesOf ((errorWindowRows c2ErrorDb (100 - 30) 100).filter
              (fun e => (resolveServiceIds c2ServiceDb "payments").contains
                e.wm_transaction_id))))) :=
  ⟨⟨by decide, by decide⟩,
    error_code_distribution_amended c2ServiceDb c2ErrorDb "payments" 30 100
      (by decide) (by decide)⟩

/-- C6: for a service with at least one record in the window (counts and
target non-negative per the data model), `calculate_error_budget` returns
budget = target/100 × total requests, consumed = total errors, remaining
= budget − consumed, percent consumed = consumed/budget × 100 guarded to
0 on a zero budget (no division by zero), and status healthy exactly when
remaining is positive, else budget_exceeded. -/
theorem calculate_error_budget_spec (db : List ServiceRow) (s : String) (lo hi : Int)
    (hne : get_service_logs db (some s) (some lo) (some hi) ≠ [])
    (hpos : ∀ r ∈ db, 0 ≤ r.total_count ∧ 0 ≤ r.target_error_slo_perc) :
    ∃ res, calculate_error_budget db s lo hi = some res
      ∧ res.total_requests =
          ((get_service_logs db (some s) (some lo) (some hi)).map (·.total_count)).sum
      ∧ res.total_errors =
          ((get_service_logs db (some s) (some lo) (some hi)).map (·.error_count)).sum
      ∧ res.errors_consumed = res.total_errors
      ∧ res.error_budget = (res.error_slo_target / 100) * (res.total_requests : Rat)
      ∧ res.budget_remaining = res.error_budget - (res.errors_consumed : Rat)
      ∧ (res.error_budget = 0 → res.budget_consumed_percent = 0)
      ∧ (res.error_budget ≠ 0 →
          res.budget_consumed_percent =
            ((res.errors_consumed : Rat) / res.error_budget) * 100)
      ∧ (0 < res.budget_remaining → res.status = "healthy")
      ∧ (¬ 0 < res.budget_remaining → res.status = "budget_exceeded") := by
  rcases hdf : get_service_logs db (some s) (some lo) (some hi) with _ | ⟨first, rest⟩
  · exact absurd hdf hne
  have hsub : ∀ r ∈ get_service_logs db (some s) (some lo) (some hi), r ∈ db := by
    intro r hr
    exact (List.mem_filter.mp (mem_sortBy.mp hr)).1
  have hfirst : first ∈ db := hsub first (by rw [hdf]; exact List.mem_cons_self _ _)
  have hreq : (0 : Int) ≤ ((first :: rest).map (·.total_count)).sum := by
    apply List.sum_nonneg
    intro x hx
    obtain ⟨r, hr, hx'⟩ := List.mem_map.mp hx
    have hrdb : r ∈ db := hsub r (by rw [hdf]; exact hr)
    rw [← hx']
    exact (hpos r hrdb).1
  have htarget : 0 ≤ first.target_error_slo_perc := (hpos first hfirst).2
  have hbudget : 0 ≤ (first.target_error_slo_perc / 100)
      * ((((first :: rest).map (·.total_count)).sum : Int) : Rat) := by
    apply mul_nonneg (div_nonneg htarget (by norm_num))
    exact_mod_cast hreq
  rw [calculate_error_budget, hdf]
  refine ⟨_, rfl, rfl, rfl, rfl, rfl, rfl, ?_, ?_, ?_, ?_⟩
  · intro h
    dsimp only at h ⊢
    rw [h]
    norm_num
  · intro h
    dsimp only at h ⊢
    rw [if_pos (lt_of_le_of_ne hbudget (Ne.symm h))]
  · intro h
    dsimp only at h ⊢
    rw [if_pos h]
  · intro h
    dsimp only at h ⊢
    rw [if_neg h]

/-- Witness for C6 at the spec's example: target 1%, 10000 requests, 150
errors, hence budget 100, consumed 150, remaining −50, budget_exceeded. -/
theorem calculate_error_budget_spec_witness :
    (get_service_logs c6Db (some "api") (some 0) (some 100) ≠ []
      ∧ ∀ r ∈ c6Db, 0 ≤ r.total_count ∧ 0 ≤ r.target_error_slo_perc)
    ∧ (∃ res, calculate_error_budget c6Db "api" 0 100 = some res
      ∧ res.total_requests =
          ((get_service_logs c6Db (some "api") (some 0) (some 100)).map (·.total_count)).sum
      ∧ res.total_errors =
          ((get_service_logs c6Db (some "api") (some 0) (some 100)).map (·.error_count)).sum
      ∧ res.errors_consumed = res.total_errors
      ∧ res.error_budget = (res.error_slo_target / 100) * (res.total_requests : Rat)
      ∧ res.budget_remaining = res.error_budget - (res.errors_consumed : Rat)
      ∧ (res.error_budget = 0 → res.budget_consumed_percent = 0)
      ∧ (res.error_budget ≠ 0 →
          res.budget_consumed_percent =
            ((res.errors_consumed : Rat) / res.error_budget) * 100)
      ∧ (0 < res.budget_remaining → res.status = "healthy")
      ∧ (¬ 0 < res.budget_remaining → res.status = "budget_exceeded"))
    ∧ calculate_error_budget c6Db "api" 0 100 =
        some { total_requests := 10000, total_errors := 150, error_slo_target := 1,
               error_budget := 100, errors_consumed := 150, budget_remaining := -50,
               budget_consumed_percent := 150, status := "budget_exceeded" } := by
  refine ⟨⟨by decide, by decide⟩,
    calculate_error_budget_spec c6Db "api" 0 100 (by decide) (by decide), ?_⟩
  have hdf : get_service_logs c6Db (some "api") (some 0) (some 100) =
      [c6r2, c6r1] := rfl
  rw [calculate_error_budget, hdf]
  norm_num [c6r1, c6r2, ErrorBudgetResult.mk.injEq]

/-- C7: for a service with data in the window (target non-negative per the
data model), `calculate_burn_rate` computes the burn rate as actual error
rate divided by the SLO target, 0 when the target is 0, and classifies it
healthy below 1, warning below 2, critical below 10 and emergency from 10
up. -/
theorem calculate_burn_rate_spec (db : List ServiceRow) (s : String) (lo hi : Int)
    (hne : get_service_logs db (some s) (some lo) (some hi) ≠ [])
    (hpos : ∀ r ∈ db, 0 ≤ r.target_error_slo_perc) :
    ∃ res, calculate_burn_rate db s lo hi = some res
      ∧ (res.error_slo_target = 0 → res.burn_rate = 0)
      ∧ (res.error_slo_target ≠ 0 →
          res.burn_rate = res.actual_error_rate / res.error_slo_target)
      ∧ (res.burn_rate < 1 → res.severity = "healthy")
      ∧ (1 ≤ res.burn_rate → res.burn_rate < 2 → res.severity = "warning")
      ∧ (2 ≤ res.burn_rate → res.burn_rate < 10 → res.severity = "critical")
      ∧ (10 ≤ res.burn_rate → res.severity = "emergency") := by
  rcases hdf : get_service_logs db (some s) (some lo) (some hi) with _ | ⟨first, rest⟩
  · exact absurd hdf hne
  have hfirst : first ∈ db := by
    have hmem : first ∈ get_service_logs db (some s) (some lo) (some hi) := by
      rw [hdf]
      exact List.mem_cons_self _ _
    exact (List.mem_filter.mp (mem_sortBy.mp hmem)).1
  have htarget : 0 ≤ first.target_error_slo_perc := hpos first hfirst
  rw [calculate_burn_rate, hdf]
  refine ⟨_, rfl, ?_, ?_, ?_, ?_, ?_, ?_⟩
  · intro h
    dsimp only at h ⊢
    rw [if_neg]
    rw [h]
    exact lt_irrefl 0
  · intro h
    dsimp only at h ⊢
    rw [if_pos (lt_of_le_of_ne htarget (Ne.symm h))]
  · intro h
    dsimp only at h ⊢
    rw [if_pos h]
  · intro h1 h2
    dsimp only at h1 h2 ⊢
    rw [if_neg (not_lt.mpr h1), if_pos h2]
  · intro h1 h2
    dsimp only at h1 h2 ⊢
    rw [if_neg (not_lt.mpr (le_trans (by norm_num) h1)),
      if_neg (not_lt.mpr h1), if_pos h2]
  · intro h
    dsimp only at h ⊢
    rw [if_neg (not_lt.mpr (le_trans (by norm_num) h)),
      if_neg (not_lt.mpr (le_trans (by norm_num) h)),
      if_neg (not_lt.mpr h)]

/-- Witness for C7 at the spec's example: 3% actual error rate against a
1% target gives burn rate 3 and severity critical. -/
theorem calculate_burn_rate_spec_witness :
    (get_service_logs c7Db (some "api") (some 0) (some 100) ≠ []
      ∧ ∀ r ∈ c7Db, 0 ≤ r.target_error_slo_perc)
    ∧ (∃ res, calculate_burn_rate c7Db "api" 0 100 = some res
      ∧ (res.error_slo_target = 0 → res.burn_rate = 0)
      ∧ (res.error_slo_target ≠ 0 →
          res.burn_rate = res.actual_error_rate / res.error_slo_target)
      ∧ (res.burn_rate < 1 → res.severity = "healthy")
      ∧ (1 ≤ res.burn_rate → res.burn_rate < 2 → res.severity = "warning")
      ∧ (2 ≤ res.burn_rate → res.burn_rate < 10 → res.severity = "critical")
      ∧ (10 ≤ res.burn_rate → res.severity = "emergency"))
    ∧ calculate_burn_rate c7Db "api" 0 100 =
        some { actual_error_rate := 3, error_slo_target := 1, burn_rate := 3,
               severity := "critical", total_requests := 100, total_errors := 3 } := by
  refine ⟨⟨by decide, by decide⟩,
    calculate_burn_rate_spec c7Db "api" 0 100 (by decide) (by decide), ?_⟩
  have hdf : get_service_logs c7Db (some "api") (some 0) (some 100) = [c7r1] := rfl
  rw [calculate_burn_rate, hdf]
  norm_num [c7r1, BurnRateResult.mk.injEq]

theorem mem_map_sortBy {α β : Type} {f : α → β} {le : α → α → Bool} {l : List α}
    {b : β} : b ∈ (sortBy le l).map f ↔ b ∈ l.map f :=
  ((sortBy_perm le l).map f).mem_iff

theorem degEntryFor_name {db : List ServiceRow} {w tmax : Int} {thr : Rat}
    {a : String} {e : DegEntry} (h : degEntryFor db w tmax thr a = some e) :
    e.service_name = a := by
  rw [degEntryFor] at h
  split at h
  · exact absurd h (by simp)
  · dsimp only at h
    split at h
    · injection h with h'
      rw [← h']
    · exact absurd h (by simp)

/-- C5: a service present in both the recent and the baseline window of
`detect_degrading_services` appears in the returned list exactly when one
of its four percent changes (mean error rate, mean response time, mean
P95, mean P99) strictly exceeds the threshold. -/
theorem detect_degrading_membership (db : List ServiceRow) (w : Int) (thr : Rat)
    (s : String) (tmax : Int)
    (hmax : maxTimeOf db = some tmax)
    (hrec : recentRowsFor db w tmax s ≠ [])
    (hbase : baselineRowsFor db w tmax s ≠ []) :
    s ∈ (detect_degrading_services db w thr).map (·.service_name)
      ↔ isDegrading thr (degChanges db w tmax s) = true := by
  have hbF : (baselineRowsFor db w tmax s).isEmpty = false := by
    rcases hb : baselineRowsFor db w tmax s with _ | _
    · exact absurd hb hbase
    · rfl
  rw [detect_degrading_services, hmax]
  dsimp only
  rw [mem_map_sortBy]
  constructor
  · intro h
    obtain ⟨e, he, hname⟩ := List.mem_map.mp h
    obtain ⟨a, _, hfa⟩ := List.mem_filterMap.mp he
    have hae : e.service_name = a := degEntryFor_name hfa
    rw [hae] at hname
    rw [hname] at hfa
    rw [degEntryFor, if_neg (by simp [hbF])] at hfa
    dsimp only at hfa
    by_cases hd : isDegrading thr (degChanges db w tmax s) = true
    · exact hd
    · rw [if_neg hd] at hfa
      cases hfa
  · intro hd
    obtain ⟨r, hr⟩ := List.exists_mem_of_ne_nil _ hrec
    have hr' := List.mem_filter.mp hr
    have hband : (r.service_name == some s) = true
        ∧ inWindowCI (tmax - w) tmax r = true := by
      have hb := hr'.2
      simp only [Bool.and_eq_true] at hb
      exact hb
    apply List.mem_map.mpr
    refine ⟨⟨s, degChanges db w tmax s, classify_severity (degChanges db w tmax s),
      (aggOf (recentRowsFor db w tmax s)).total_requests,
      (aggOf (recentRowsFor db w tmax s)).total_errors⟩, ?_, rfl⟩
    apply List.mem_filterMap.mpr
    refine ⟨s, ?_, ?_⟩
    · apply List.mem_dedup.mpr
      apply List.mem_filterMap.mpr
      exact ⟨r, List.mem_filter.mpr ⟨hr'.1, hband.2⟩, by simpa using hband.1⟩
    · rw [degEntryFor, if_neg (by simp [hbF])]
      dsimp only
      rw [if_pos hd]

/-- Witness for C5: with threshold 20%, the service whose error rate rises
30% appears in the output and the one rising 10% does not. -/
theorem detect_degrading_membership_witness :
    (maxTimeOf c5Db = some 20
      ∧ recentRowsFor c5Db 10 20 "svc-a" ≠ []
      ∧ baselineRowsFor c5Db 10 20 "svc-a" ≠ []
      ∧ recentRowsFor c5Db 10 20 "svc-b" ≠ []
      ∧ baselineRowsFor c5Db 10 20 "svc-b" ≠ [])
    ∧ "svc-a" ∈ (detect_degrading_services c5Db 10 20).map (·.service_name)
    ∧ "svc-b" ∉ (detect_degrading_services c5Db 10 20).map (·.service_name) := by
  have hcha : degChanges c5Db 10 20 "svc-a" =
      { error_rate_change := 30, response_time_change := 0,
        p95_change := 0, p99_change := 0 } := by
    rw [degChanges,
      show recentRowsFor c5Db 10 20 "svc-a" = [c5a2] from rfl,
      show baselineRowsFor c5Db 10 20 "svc-a" = [c5a1] from rfl]
    norm_num [aggOf, avgQ, avgOptQ, pctChangeOpt, calculate_percent_change,
      c5a1, c5a2, baseRow, ChangeSet.mk.injEq]
  have hchb : degChanges c5Db 10 20 "svc-b" =
      { error_rate_change := 10, response_time_change := 0,
        p95_change := 0, p99_change := 0 } := by
    rw [degChanges,
      show recentRowsFor c5Db 10 20 "svc-b" = [c5b2] from rfl,
      show baselineRowsFor c5Db 10 20 "svc-b" = [c5b1] from rfl]
    norm_num [aggOf, avgQ, avgOptQ, pctChangeOpt, calculate_percent_change,
      c5b1, c5b2, baseRow, ChangeSet.mk.injEq]
  refine ⟨⟨rfl, by decide, by decide, by decide, by decide⟩, ?_, ?_⟩
  · exact (detect_degrading_membership c5Db 10 20 "svc-a" 20 rfl (by decide)
      (by decide)).mpr (by rw [hcha]; norm_num [isDegrading])
  · intro hmem
    have hdeg := (detect_degrading_membership c5Db 10 20 "svc-b" 20 rfl (by decide)
      (by decide)).mp hmem
    rw [hchb] at hdeg
    norm_num [isDegrading] at hdeg

theorem riskLevelOfScore_cases (n : Int) :
    (70 ≤ n → riskLevelOfScore n = "critical")
    ∧ (50 ≤ n → n < 70 → riskLevelOfScore n = "high")
    ∧ (30 ≤ n → n < 50 → riskLevelOfScore n = "medium")
    ∧ (n < 30 → riskLevelOfScore n = "low") := by
  refine ⟨?_, ?_, ?_, ?_⟩
  · intro h
    rw [riskLevelOfScore, if_pos (by omega : n ≥ 70)]
  · intro h1 h2
    rw [riskLevelOfScore, if_neg (by omega : ¬ n ≥ 70), if_pos (by omega : n ≥ 50)]
  · intro h1 h2
    rw [riskLevelOfScore, if_neg (by omega : ¬ n ≥ 70), if_neg (by omega : ¬ n ≥ 50),
      if_pos (by omega : n ≥ 30)]
  · intro h
    rw [riskLevelOfScore, if_neg (by omega : ¬ n ≥ 70), if_neg (by omega : ¬ n ≥ 50),
      if_neg (by omega : ¬ n ≥ 30)]

/-- C8: `_analyze_service_trend` accumulates the risk score additively
from the listed factors (+30 error-rate slope above 0.1, +20
response-time slope above 0.001, +25 error rate above 70% of target, +25
response time above 70% of target, +15 error-rate std above 5, +40 error
rate above target, +40 response time above target) and maps the score to
a level by ≥70 critical, ≥50 high, ≥30 medium, else low; a service whose
only factors are the error-rate slope and error-rate proximity scores
30 + 25 = 55 and is classified high. -/
theorem analyze_service_trend_scoring (db : List ServiceRow) (svc : Option String) :
    (∀ p, analyze_service_trend db svc = some p →
        p.risk_score =
          (if erSlopeOf db svc > 1/10 then 30 else 0)
          + (if rtSlopeOf db svc > 1/1000 then 20 else 0)
          + (if (latestRowOf db svc).error_rate >
              (latestRowOf db svc).target_error_slo_perc * (7/10) then 25 else 0)
          + (if (latestRowOf db svc).response_time_avg >
              (latestRowOf db svc).target_response_slo_sec * (7/10) then 25 else 0)
          + (if erVarOf db svc > 25 then 15 else 0)
          + (if (latestRowOf db svc).error_rate >
              (latestRowOf db svc).target_error_slo_perc then 40 else 0)
          + (if (latestRowOf db svc).response_time_avg >
              (latestRowOf db svc).target_response_slo_sec then 40 else 0)
        ∧ (70 ≤ p.risk_score → p.risk_level = "critical")
        ∧ (50 ≤ p.risk_score → p.risk_score < 70 → p.risk_level = "high")
        ∧ (30 ≤ p.risk_score → p.risk_score < 50 → p.risk_level = "medium")
        ∧ (p.risk_score < 30 → p.risk_level = "low"))
    ∧ (3 ≤ (get_service_logs db svc none none).length →
        erSlopeOf db svc > 1/10 →
        ¬ rtSlopeOf db svc > 1/1000 →
        (latestRowOf db svc).error_rate >
            (latestRowOf db svc).target_error_slo_perc * (7/10) →
        ¬ (latestRowOf db svc).error_rate > (latestRowOf db svc).target_error_slo_perc →
        ¬ (latestRowOf db svc).response_time_avg >
            (latestRowOf db svc).target_response_slo_sec * (7/10) →
        ¬ (latestRowOf db svc).response_time_avg >
            (latestRowOf db svc).target_response_slo_sec →
        ¬ erVarOf db svc > 25 →
        ∃ p, analyze_service_trend db svc = some p
          ∧ p.risk_score = 55 ∧ p.risk_level = "high") := by
  constructor
  · intro p hp
    rw [analyze_service_trend] at hp
    split at hp
    · cases hp
    · split at hp
      · cases hp
      · injection hp with hp'
        rw [← hp']
        refine ⟨rfl, ?_, ?_, ?_, ?_⟩
        · intro h
          exact (riskLevelOfScore_cases _).1 h
        · intro h1 h2
          exact (riskLevelOfScore_cases _).2.1 h1 h2
        · intro h1 h2
          exact (riskLevelOfScore_cases _).2.2.1 h1 h2
        · intro h
          exact (riskLevelOfScore_cases _).2.2.2 h
  · intro h3 f1 f2 f3 f6 f4 f7 f5
    have hscore : riskScoreOf db svc = 55 := by
      rw [riskScoreOf]
      rw [if_pos f1, if_neg f2, if_pos f3, if_neg f4, if_neg f5, if_neg f6, if_neg f7]
      norm_num
    have hfac : riskFactorsOf db svc =
        ["Error rate trending upward", "Error rate approaching SLO target"] := by
      rw [riskFactorsOf]
      rw [if_pos f1, if_neg f2, if_pos f3, if_neg f4, if_neg f5, if_neg f6, if_neg f7]
      rfl
    rw [analyze_service_trend, if_neg (not_lt.mpr h3), if_neg (by simp [hfac])]
    refine ⟨_, rfl, hscore, ?_⟩
    rw [hscore]
    rfl

/-- Witness for C8 at the three-point history of `svc`: error-rate slope
0.15 and latest error rate at 80% of target, no other factor. -/
theorem analyze_service_trend_scoring_witness :
    (3 ≤ (get_service_logs c8Db (some "svc") none none).length
      ∧ erSlopeOf c8Db (some "svc") > 1/10
      ∧ ¬ rtSlopeOf c8Db (some "svc") > 1/1000
      ∧ (latestRowOf c8Db (some "svc")).error_rate >
          (latestRowOf c8Db (some "svc")).target_error_slo_perc * (7/10)
      ∧ ¬ (latestRowOf c8Db (some "svc")).error_rate >
          (latestRowOf c8Db (some "svc")).target_error_slo_perc
      ∧ ¬ (latestRowOf c8Db (some "svc")).response_time_avg >
          (latestRowOf c8Db (some "svc")).target_response_slo_sec * (7/10)
      ∧ ¬ (latestRowOf c8Db (some "svc")).response_time_avg >
          (latestRowOf c8Db (some "svc")).target_response_slo_sec
      ∧ ¬ erVarOf c8Db (some "svc") > 25)
    ∧ (∃ p, analyze_service_trend c8Db (some "svc") = some p
        ∧ p.risk_score = 55 ∧ p.risk_level = "high") := by
  have hasc : trendRowsAsc c8Db (some "svc") = [c8r1, c8r2, c8r3] := rfl
  have hlat : latestRowOf c8Db (some "svc") = c8r3 := rfl
  have hmap : (trendRowsAsc c8Db (some "svc")).map (·.error_rate) =
      [1/2, 13/20, 4/5] := by
    rw [hasc]
    norm_num [c8r1, c8r2, c8r3, baseRow]
  have hmaprt : (trendRowsAsc c8Db (some "svc")).map (·.response_time_avg) =
      [1/10, 1/10, 1/10] := by
    rw [hasc]
    norm_num [c8r1, c8r2, c8r3, baseRow]
  have hsl : erSlopeOf c8Db (some "svc") = 3/20 := by
    rw [erSlopeOf, hmap, linearTrendSlope]
    norm_num [show List.range 3 = [0, 1, 2] from rfl]
  have hrt : rtSlopeOf c8Db (some "svc") = 0 := by
    rw [rtSlopeOf, hmaprt, linearTrendSlope]
    norm_num [show List.range 3 = [0, 1, 2] from rfl]
  have hvar : erVarOf c8Db (some "svc") = 9/400 := by
    rw [erVarOf, hmap, sampleVariance]
    norm_num
  have h3 : 3 ≤ (get_service_logs c8Db (some "svc") none none).length := by decide
  have f1 : erSlopeOf c8Db (some "svc") > 1/10 := by
    rw [hsl]
    norm_num
  have f2 : ¬ rtSlopeOf c8Db (some "svc") > 1/1000 := by
    rw [hrt]
    norm_num
  have f3 : (latestRowOf c8Db (some "svc")).error_rate >
      (latestRowOf c8Db (some "svc")).target_error_slo_perc * (7/10) := by
    rw [hlat]
    norm_num [c8r3, baseRow]
  have f6 : ¬ (latestRowOf c8Db (some "svc")).error_rate >
      (latestRowOf c8Db (some "svc")).target_error_slo_perc := by
    rw [hlat]
    norm_num [c8r3, baseRow]
  have f4 : ¬ (latestRowOf c8Db (some "svc")).response_time_avg >
      (latestRowOf c8Db (some "svc")).target_response_slo_sec * (7/10) := by
    rw [hlat]
    norm_num [c8r3, baseRow]
  have f7 : ¬ (latestRowOf c8Db (some "svc")).response_time_avg >
      (latestRowOf c8Db (some "svc")).target_response_slo_sec := by
    rw [hlat]
    norm_num [c8r3, baseRow]
  have f5 : ¬ erVarOf c8Db (some "svc") > 25 := by
    rw [hvar]
    norm_num
  exact ⟨⟨h3, f1, f2, f3, f6, f4, f7, f5⟩,
    (analyze_service_trend_scoring c8Db (some "svc")).2 h3 f1 f2 f3 f6 f4 f7 f5⟩

theorem analyze_service_trend_name {db : List ServiceRow} {sv : Option String}
    {q : TrendPrediction} (h : analyze_service_trend db sv = some q) :
    q.service_name = sv := by
  rw [analyze_service_trend] at h
  split at h
  · cases h
  · split at h
    · cases h
    · injection h with h'
      rw [← h']

/-- C9 amended: a service with a non-empty name and fewer than 3 stored
records is never analyzed into a prediction, hence never appears in
`predict_issues_today`; for the empty-string name the history query falls
back to the whole table (Python truthiness), see the counterexample. -/
theorem predict_excludes_sparse (db : List ServiceRow) (s : String)
    (hs : s ≠ "")
    (hcount : (db.filter (fun r => r.service_name == some s)).length < 3) :
    some s ∉ (predict_issues_today db).map (·.service_name) := by
  intro hmem
  rw [predict_issues_today] at hmem
  rcases hmt : maxTimeOf db with _ | tmax
  · rw [hmt] at hmem
    simp at hmem
  · rw [hmt] at hmem
    dsimp only at hmem
    rw [mem_map_sortBy] at hmem
    obtain ⟨p, hp, hpname⟩ := List.mem_map.mp hmem
    obtain ⟨sv, _, hfsv⟩ := List.mem_filterMap.mp hp
    rcases han : analyze_service_trend db sv with _ | q
    · rw [han] at hfsv
      cases hfsv
    · rw [han] at hfsv
      dsimp only at hfsv
      have hqp : q = p := by
        by_cases hl : q.risk_level = "high" ∨ q.risk_level = "critical"
        · rw [if_pos hl] at hfsv
          exact Option.some.inj hfsv
        · rw [if_neg hl] at hfsv
          cases hfsv
      have hname : q.service_name = sv := analyze_service_trend_name han
      have hsv : sv = some s := by rw [← hname, hqp, hpname]
      rw [hsv] at han
      have hlen : (get_service_logs db (some s) none none).length < 3 := by
        rw [get_service_logs, length_sortBy]
        have hfe : db.filter (fun r => matchesServiceFilter (some s) r
            && afterStart none r && beforeEnd none r)
            = db.filter (fun r => r.service_name == some s) := by
          apply List.filter_congr
          intro r _
          simp [matchesServiceFilter, afterStart, beforeEnd, hs]
        rw [hfe]
        exact hcount
      rw [analyze_service_trend, if_pos hlen] at han
      cases han

/-- Witness for the amended C9: service `x` has two rows in the table and
does not appear among the predictions. -/
theorem predict_excludes_sparse_witness :
    ("x" ≠ "" ∧ (c9Db.filter (fun r => r.service_name == some "x")).length < 3)
    ∧ some "x" ∉ (predict_issues_today c9Db).map (·.service_name) :=
  ⟨⟨by decide, by decide⟩, predict_excludes_sparse c9Db "x" (by decide) (by decide)⟩

/-- C9 counterexample: the empty-string-named service has only two stored
rows, yet it appears in `predict_issues_today`: `get_service_logs` treats
the empty name as "no filter" (Python truthiness), so its trend is
computed over the whole four-row table and flags it critical. -/
theorem predict_issues_empty_name_counterexample :
    ((c9Db.filter (fun r => r.service_name == some "")).length < 3)
    ∧ some "" ∈ (predict_issues_today c9Db).map (·.service_name) := by
  constructor
  · decide
  · have hasc : trendRowsAsc c9Db (some "") = [c9e1, c9e2, c9x1, c9x2] := rfl
    have hlat : latestRowOf c9Db (some "") = c9x2 := rfl
    have hmap : (trendRowsAsc c9Db (some "")).map (·.error_rate) =
        [50, 50, 50, 50] := by
      rw [hasc]
      norm_num [c9e1, c9e2, c9x1, c9x2, baseRow]
    have hmaprt : (trendRowsAsc c9Db (some "")).map (·.response_time_avg) =
        [10, 10, 10, 10] := by
      rw [hasc]
      norm_num [c9e1, c9e2, c9x1, c9x2, baseRow]
    have hsl : erSlopeOf c9Db (some "") = 0 := by
      rw [erSlopeOf, hmap, linearTrendSlope]
      norm_num [show List.range 4 = [0, 1, 2, 3] from rfl]
    have hrt : rtSlopeOf c9Db (some "") = 0 := by
      rw [rtSlopeOf, hmaprt, linearTrendSlope]
      norm_num [show List.range 4 = [0, 1, 2, 3] from rfl]
    have hvar : erVarOf c9Db (some "") = 0 := by
      rw [erVarOf, hmap, sampleVariance]
      norm_num
    have hfac : riskFactorsOf c9Db (some "") =
        ["Error rate approaching SLO target", "Response time approaching SLO target",
         "Currently violating error rate SLO",
         "Currently violating response time SLO"] := by
      rw [riskFactorsOf, hsl, hrt, hvar, hlat]
      norm_num [c9x2, baseRow]
    have hscore : riskScoreOf c9Db (some "") = 130 := by
      rw [riskScoreOf, hsl, hrt, hvar, hlat]
      norm_num [c9x2, baseRow]
    have han : analyze_service_trend c9Db (some "") =
        some { service_name := some ""
               risk_level := riskLevelOfScore (riskScoreOf c9Db (some ""))
               risk_score := riskScoreOf c9Db (some "")
               risk_factors := riskFactorsOf c9Db (some "")
               error_rate_slope := erSlopeOf c9Db (some "")
               response_time_slope := rtSlopeOf c9Db (some "") } := by
      rw [analyze_service_trend, if_neg (by decide), if_neg (by simp [hfac])]
    have hlvl : riskLevelOfScore (riskScoreOf c9Db (some "")) = "critical" := by
      rw [hscore]
      decide
    rw [predict_issues_today, show maxTimeOf c9Db = some 3 from rfl]
    dsimp only
    rw [mem_map_sortBy]
    apply List.mem_map.mpr
    refine ⟨{ service_name := some ""
              risk_level := riskLevelOfScore (riskScoreOf c9Db (some ""))
              risk_score := riskScoreOf c9Db (some "")
              risk_factors := riskFactorsOf c9Db (some "")
              error_rate_slope := erSlopeOf c9Db (some "")
              response_time_slope := rtSlopeOf c9Db (some "") }, ?_, rfl⟩
    apply List.mem_filterMap.mpr
    refine ⟨some "", by rw [get_all_services, mem_sortBy]; decide, ?_⟩
    rw [han]
    dsimp only
    rw [if_pos (Or.inr hlvl)]

end SLOChatbot
